import Mathlib

/-!
Shallow embedding of the LangGraph phone-advisor workflow
(`src/langgraph_agent.py`, class `PhoneRAGGraph`) together with proofs
about its conversation state machine.

Modelling conventions:
* `RAGState` mirrors the `RAGState` TypedDict.  The `messages` channel uses
  the `add_messages` reducer, so node updates append; every other channel is
  last-value.  With a checkpointer, channel values persist across `invoke`
  calls on one thread id, so a turn starts from the previous turn's final
  state with the new `HumanMessage` appended.
* The two language-model calls and the database call are external
  collaborators; they are threaded in as the `Oracles` record.  `strMsg`
  models Python's `str()` rendering of a non-human message object.
* Python truthiness of strings (`if sql_query`) and of `state.get("error")`
  is modelled explicitly (`pyTruthyStr`, `pyTruthyErr`).
-/

namespace PhoneAdvisor

/-- Role-tagged utterance, mirroring the langchain message classes used by
the source (`HumanMessage`, `AIMessage`, `SystemMessage`). -/
inductive Message where
  | human (content : String)
  | ai (content : String)
  | sys (content : String)
deriving DecidableEq, Repr

/-- A database row: mapping from column name to value, as in `List[dict]`. -/
abbrev Row := List (String × String)

/-- The `RAGState` TypedDict of `src/langgraph_agent.py` (lines 10-17).
`error := none` models the channel being absent (never written). -/
structure RAGState where
  messages : List Message
  question : String
  sql_query : String
  db_results : List Row
  final_answer : String
  error : Option String
deriving DecidableEq, Repr

/-- External collaborators of the workflow: the SQL-generation model call
(`self.llm.invoke` inside `generate_sql_node`, as a function of the
question that determines the prompt), the database
(`self.db.execute_query`, raising modelled as `Except.error`), the
answer-generation model call (`self.llm.invoke` inside
`generate_answer_node`), and Python's `str()` rendering of a message. -/
structure Oracles where
  genSqlRaw : String → String
  dbExec : String → Except String (List Row)
  genAnswerRaw : String → List Row → String
  strMsg : Message → String

/-- The backtick character (avoids spelling it in source text). -/
def btick : Char := Char.ofNat 96

/-- The apostrophe character. -/
def apos : Char := Char.ofNat 39

/-- Case-insensitive test for the three characters of the fence tag in
`re.sub(r"...(?:sql)?|...", "", sql_text, flags=re.IGNORECASE)`. -/
def isSqlTag (a b c : Char) : Bool :=
  a.toLower = 's' && b.toLower = 'q' && c.toLower = 'l'

/-- Fuel-indexed scanner for the code-fence pattern of `_clean_sql`
(line 266), modelling `re.sub`: scanning left to right, a run of three
backticks is removed together with a directly following `sql` tag
(case-insensitively, greedy first alternative); at every other character
the scan advances by one and emits it.  Every step consumes at least one
character, so fuel equal to the input length never runs out; the
zero-fuel fallback is unreachable from `reSubFences`. -/
def reSubFencesAux : Nat → List Char → List Char
  | _, [] => []
  | 0, l => l
  | fuel + 1, c :: cs =>
    if c = btick then
      match cs with
      | c2 :: cs2 =>
        if c2 = btick then
          match cs2 with
          | c3 :: cs3 =>
            if c3 = btick then
              match cs3 with
              | a :: b :: d :: cs6 =>
                if isSqlTag a b d then reSubFencesAux fuel cs6
                else reSubFencesAux fuel cs3
              | _ => reSubFencesAux fuel cs3
            else c :: reSubFencesAux fuel cs
          | [] => c :: reSubFencesAux fuel cs
        else c :: reSubFencesAux fuel cs
      | [] => [c]
    else c :: reSubFencesAux fuel cs

/-- Model of `re.sub` with the code-fence pattern of `_clean_sql`
(line 266). -/
def reSubFences (l : List Char) : List Char :=
  reSubFencesAux l.length l

/-- ASCII whitespace recognised by Python's `str.strip()`. -/
def isPySpace (c : Char) : Bool :=
  c = ' ' || c = '\t' || c = '\n' || c = '\r' || c.toNat = 11 || c.toNat = 12

/-- Python `str.strip()` on the character list. -/
def pyStripChars (l : List Char) : List Char :=
  ((l.dropWhile isPySpace).reverse.dropWhile isPySpace).reverse

/-- Python `str.strip()` on strings (used for `response.content.strip()`). -/
def pyStripStr (s : String) : String :=
  String.mk (pyStripChars s.data)

/-- Python `str.rstrip(";")`: removes every trailing semicolon. -/
def rstripSemis (l : List Char) : List Char :=
  (l.reverse.dropWhile (fun c => c = ';')).reverse

/-- `_clean_sql` (lines 263-269): remove markdown code fences, strip
surrounding whitespace, then `rstrip(";")`. -/
def clean_sql (s : String) : String :=
  String.mk (rstripSemis (pyStripChars (reSubFences s.data)))

/-- Python truthiness of a string: non-empty. -/
def pyTruthyStr (s : String) : Bool := !s.data.isEmpty

/-- Python truthiness of `state.get("error")`: present and non-empty. -/
def pyTruthyErr : Option String → Bool
  | some e => pyTruthyStr e
  | none => false

/-- `extract_question_node` (lines 133-143): take `messages[-1]`; use its
content if it is a `HumanMessage`, otherwise `str(last_message)`.  The
empty-messages case (an `IndexError` in the source) is unreachable from
`ask`, which always appends the user message first; it is modelled as the
identity. -/
def extract_question_node (o : Oracles) (st : RAGState) : RAGState :=
  match st.messages.getLast? with
  | some (Message.human c) => { st with question := c }
  | some m => { st with question := o.strMsg m }
  | none => st

/-- `generate_sql_node` (lines 145-184): one model call on a prompt built
from the question, then `_clean_sql` of the response content. -/
def generate_sql_node (o : Oracles) (st : RAGState) : RAGState :=
  { st with sql_query := clean_sql (o.genSqlRaw st.question) }

/-- `execute_query_node` (lines 186-194): run the SQL; an exception is
caught and recorded as `"Database error: " ++ text`. -/
def execute_query_node (o : Oracles) (st : RAGState) : RAGState :=
  match o.dbExec st.sql_query with
  | Except.ok results => { st with db_results := results }
  | Except.error e => { st with error := some ("Database error: " ++ e) }

/-- The canned empty-result message of `generate_answer_node` (line 202). -/
def noResultsMsg : String :=
  "I couldn" ++ String.singleton apos ++
    "t find any phones matching your criteria. Try rephrasing your question or asking about different specifications."

/-- `generate_answer_node` (lines 196-238): canned message on an empty row
set (no model call), otherwise the stripped model response; either way the
answer is appended as an `AIMessage` and stored in `final_answer`. -/
def generate_answer_node (o : Oracles) (st : RAGState) : RAGState :=
  if st.db_results.isEmpty then
    { st with final_answer := noResultsMsg,
              messages := st.messages ++ [Message.ai noResultsMsg] }
  else
    let answer := pyStripStr (o.genAnswerRaw st.question st.db_results)
    { st with final_answer := answer,
              messages := st.messages ++ [Message.ai answer] }

/-- Default used by `state.get("error", "Unknown error occurred")`. -/
def unknownErrorMsg : String := "Unknown error occurred"

/-- Prefix of the `handle_error_node` answer template (line 243). -/
def errPrefix : String := "I encountered an issue processing your question: "

/-- Suffix of the `handle_error_node` answer template (line 243). -/
def errSuffix : String :=
  "\n\nPlease try rephrasing your question or ask something else about Samsung phones."

/-- The `handle_error_node` answer template, as a function of the recorded
error text. -/
def errTemplate (e : String) : String := errPrefix ++ (e ++ errSuffix)

/-- `handle_error_node` (lines 240-248). -/
def handle_error_node (st : RAGState) : RAGState :=
  let answer := errTemplate (st.error.getD unknownErrorMsg)
  { st with final_answer := answer,
            messages := st.messages ++ [Message.ai answer] }

/-- `check_sql_valid` (lines 250-255): `if sql_query and len(sql_query) > 10`. -/
def check_sql_valid (st : RAGState) : String :=
  if pyTruthyStr st.sql_query && decide (st.sql_query.length > 10) then "valid"
  else "invalid"

/-- `check_results` (lines 257-261): `if state.get("error")`. -/
def check_results (st : RAGState) : String :=
  if pyTruthyErr st.error then "error" else "success"

/-- Which terminal node a turn reached (instrumentation of the graph's
conditional edges in `_build_graph`, lines 98-131). -/
inductive Route where
  | answer
  | errorInvalid
  | errorDb
deriving DecidableEq, Repr

/-- Result of one graph traversal, with call counters instrumenting the
external calls (one SQL model call per turn, a database call iff
`execute_query` runs, an answer model call iff `generate_answer` takes its
non-empty branch). -/
structure TurnResult where
  state : RAGState
  route : Route
  sqlLlmCalls : Nat
  dbCalls : Nat
  answerLlmCalls : Nat
deriving Repr

/-- One traversal of the compiled graph (`_build_graph`, lines 98-131):
`START → extract_question → generate_sql`, then the conditional edge on
`check_sql_valid`, then on success the conditional edge on
`check_results`, ending at `generate_answer` or `handle_error`. -/
def runTurn (o : Oracles) (st : RAGState) : TurnResult :=
  let st1 := extract_question_node o st
  let st2 := generate_sql_node o st1
  if check_sql_valid st2 = "valid" then
    let st3 := execute_query_node o st2
    if check_results st3 = "error" then
      { state := handle_error_node st3, route := Route.errorDb,
        sqlLlmCalls := 1, dbCalls := 1, answerLlmCalls := 0 }
    else
      { state := generate_answer_node o st3, route := Route.answer,
        sqlLlmCalls := 1, dbCalls := 1,
        answerLlmCalls := if st3.db_results.isEmpty then 0 else 1 }
  else
    { state := handle_error_node st2, route := Route.errorInvalid,
      sqlLlmCalls := 1, dbCalls := 0, answerLlmCalls := 0 }

/-- The `add_messages` update performed by `ask`'s input
`{"messages": [HumanMessage(content=question)]}` on the thread's
checkpointed state. -/
def pushHuman (st : RAGState) (q : String) : RAGState :=
  { st with messages := st.messages ++ [Message.human q] }

/-- The dictionary returned by `ask` (lines 280-284). -/
structure AskReturn where
  answer : String
  sql_query : String
  results : List Row
deriving DecidableEq, Repr

/-- One call to `ask` on a thread whose checkpointed state is `st`:
append the user message, traverse the graph once. -/
def askTurn (o : Oracles) (st : RAGState) (q : String) : TurnResult :=
  runTurn o (pushHuman st q)

/-- `ask` (lines 271-284): returns the answer dictionary and the state the
checkpointer persists for the thread. -/
def ask (o : Oracles) (st : RAGState) (q : String) : AskReturn × RAGState :=
  let r := askTurn o st q
  (⟨r.state.final_answer, r.state.sql_query, r.state.db_results⟩, r.state)

/-- The state of a fresh thread: no channel has been written yet. -/
def initialState : RAGState :=
  { messages := [], question := "", sql_query := "", db_results := [],
    final_answer := "", error := none }

/-- N successive `ask` calls with the same thread id, starting from a
fresh thread. -/
def runThread (o : Oracles) (qs : List String) : RAGState :=
  qs.foldl (fun st q => (ask o st q).2) initialState

/-- `get_conversation_history` (lines 296-301): the persisted `messages`
channel of the thread. -/
def get_conversation_history (st : RAGState) : List Message :=
  st.messages

/-! Helper lemmas: a normal form for one `ask` turn. -/

/-- State after the unconditional prefix of a turn (`extract_question`
then `generate_sql`) starting from checkpointed state `st` and the new
user question `q`. -/
def preState (o : Oracles) (st : RAGState) (q : String) : RAGState :=
  { st with messages := st.messages ++ [Message.human q],
            question := q,
            sql_query := clean_sql (o.genSqlRaw q) }

theorem pre_eq (o : Oracles) (st : RAGState) (q : String) :
    generate_sql_node o (extract_question_node o (pushHuman st q)) = preState o st q := by
  unfold pushHuman extract_question_node
  rw [List.getLast?_concat]
  rfl

theorem string_length_data (s : String) : s.length = s.data.length := rfl

theorem check_sql_valid_eq (st : RAGState) :
    check_sql_valid st = if st.sql_query.length > 10 then "valid" else "invalid" := by
  unfold check_sql_valid pyTruthyStr
  by_cases h : st.sql_query.length > 10
  · have hne : st.sql_query.data.isEmpty = false := by
      rw [List.isEmpty_eq_false]
      intro hd
      rw [string_length_data, hd] at h
      simp at h
    simp [h, hne]
  · simp [h]

theorem dbErrMsg_ne_nil (e : String) : ("Database error: " ++ e).data ≠ [] := by
  intro h
  have hl := congrArg List.length h
  rw [String.data_append, List.length_append] at hl
  have h16 : "Database error: ".data.length = 16 := rfl
  rw [h16] at hl
  simp at hl

theorem dbErrMsg_truthy (e : String) : pyTruthyErr (some ("Database error: " ++ e)) = true := by
  unfold pyTruthyErr pyTruthyStr
  simp [dbErrMsg_ne_nil e]

theorem askTurn_invalid (o : Oracles) (st : RAGState) (q : String)
    (h : (clean_sql (o.genSqlRaw q)).length ≤ 10) :
    askTurn o st q =
      { state := handle_error_node (preState o st q), route := Route.errorInvalid,
        sqlLlmCalls := 1, dbCalls := 0, answerLlmCalls := 0 } := by
  simp only [askTurn, runTurn]
  rw [pre_eq, check_sql_valid_eq]
  have hn : ¬ (preState o st q).sql_query.length > 10 := by
    simpa [preState] using Nat.not_lt.mpr h
  rw [if_neg hn]
  simp

theorem askTurn_dbError (o : Oracles) (st : RAGState) (q e : String)
    (hlen : (clean_sql (o.genSqlRaw q)).length > 10)
    (hdb : o.dbExec (clean_sql (o.genSqlRaw q)) = Except.error e) :
    askTurn o st q =
      { state := handle_error_node
          { preState o st q with error := some ("Database error: " ++ e) },
        route := Route.errorDb, sqlLlmCalls := 1, dbCalls := 1, answerLlmCalls := 0 } := by
  simp only [askTurn, runTurn]
  rw [pre_eq, check_sql_valid_eq]
  have hp : (preState o st q).sql_query.length > 10 := by simpa [preState] using hlen
  rw [if_pos hp]
  simp only [execute_query_node, preState]
  simp only [hdb]
  simp [check_results, dbErrMsg_truthy, preState]

theorem askTurn_okStale (o : Oracles) (st : RAGState) (q : String) (rows : List Row)
    (hlen : (clean_sql (o.genSqlRaw q)).length > 10)
    (hdb : o.dbExec (clean_sql (o.genSqlRaw q)) = Except.ok rows)
    (hstale : pyTruthyErr st.error = true) :
    askTurn o st q =
      { state := handle_error_node { preState o st q with db_results := rows },
        route := Route.errorDb, sqlLlmCalls := 1, dbCalls := 1, answerLlmCalls := 0 } := by
  simp only [askTurn, runTurn]
  rw [pre_eq, check_sql_valid_eq]
  have hp : (preState o st q).sql_query.length > 10 := by simpa [preState] using hlen
  rw [if_pos hp]
  simp only [execute_query_node, preState]
  simp only [hdb]
  simp [check_results, preState, hstale]

theorem askTurn_okClean (o : Oracles) (st : RAGState) (q : String) (rows : List Row)
    (hlen : (clean_sql (o.genSqlRaw q)).length > 10)
    (hdb : o.dbExec (clean_sql (o.genSqlRaw q)) = Except.ok rows)
    (hclean : pyTruthyErr st.error = false) :
    askTurn o st q =
      { state := generate_answer_node o { preState o st q with db_results := rows },
        route := Route.answer, sqlLlmCalls := 1, dbCalls := 1,
        answerLlmCalls := if rows.isEmpty then 0 else 1 } := by
  simp only [askTurn, runTurn]
  rw [pre_eq, check_sql_valid_eq]
  have hp : (preState o st q).sql_query.length > 10 := by simpa [preState] using hlen
  rw [if_pos hp]
  simp only [execute_query_node, preState]
  simp only [hdb]
  simp [check_results, preState, hclean]

@[simp] theorem extract_question_node_messages (o : Oracles) (st : RAGState) :
    (extract_question_node o st).messages = st.messages := by
  unfold extract_question_node
  split <;> rfl

@[simp] theorem generate_sql_node_messages (o : Oracles) (st : RAGState) :
    (generate_sql_node o st).messages = st.messages := rfl

@[simp] theorem execute_query_node_messages (o : Oracles) (st : RAGState) :
    (execute_query_node o st).messages = st.messages := by
  unfold execute_query_node
  split <;> rfl

@[simp] theorem handle_error_node_messages (st : RAGState) :
    (handle_error_node st).messages =
      st.messages ++ [Message.ai (errTemplate (st.error.getD unknownErrorMsg))] := rfl

theorem runTurn_messages (o : Oracles) (st : RAGState) :
    ∃ a, (runTurn o st).state.messages = st.messages ++ [Message.ai a] := by
  simp only [runTurn]
  split
  · split
    · refine ⟨errTemplate ((execute_query_node o (generate_sql_node o
        (extract_question_node o st))).error.getD unknownErrorMsg), ?_⟩
      simp
    · unfold generate_answer_node
      split
      · refine ⟨noResultsMsg, ?_⟩
        simp
      · refine ⟨pyStripStr (o.genAnswerRaw
          (execute_query_node o (generate_sql_node o (extract_question_node o st))).question
          (execute_query_node o (generate_sql_node o (extract_question_node o st))).db_results), ?_⟩
        simp
  · refine ⟨errTemplate ((generate_sql_node o
      (extract_question_node o st)).error.getD unknownErrorMsg), ?_⟩
    simp

/-- The messages contributed by a sequence of turns: one user utterance
and one assistant utterance per turn, in call order. -/
def turnPairs : List (String × String) → List Message
  | [] => []
  | (q, a) :: rest => Message.human q :: Message.ai a :: turnPairs rest

theorem turnPairs_length (l : List (String × String)) :
    (turnPairs l).length = 2 * l.length := by
  induction l with
  | nil => rfl
  | cons p rest ih =>
    obtain ⟨q, a⟩ := p
    simp [turnPairs, ih]
    ring

theorem runThread_messages (o : Oracles) (qs : List String) :
    ∀ st : RAGState, ∃ answers : List String, answers.length = qs.length ∧
      (qs.foldl (fun s q => (ask o s q).2) st).messages =
        st.messages ++ turnPairs (qs.zip answers) := by
  induction qs with
  | nil =>
    intro st
    exact ⟨[], rfl, by simp [turnPairs]⟩
  | cons q qs ih =>
    intro st
    obtain ⟨a, ha⟩ := runTurn_messages o (pushHuman st q)
    obtain ⟨answers, hlen, hmsg⟩ := ih ((ask o st q).2)
    refine ⟨a :: answers, by simp [hlen], ?_⟩
    simp only [List.foldl_cons]
    rw [hmsg]
    have hone : (ask o st q).2.messages = st.messages ++ [Message.human q, Message.ai a] := by
      show (runTurn o (pushHuman st q)).state.messages = _
      rw [ha]
      simp [pushHuman]
    rw [hone]
    simp [turnPairs, List.zip]

/-! Sanitizer characterization. -/

/-- Do the first two characters both equal a backtick? -/
def startsTwoBticks : List Char → Bool
  | c2 :: c3 :: _ => c2 = btick && c3 = btick
  | _ => false

/-- Does the character list contain three consecutive backticks, i.e. a
markdown code-fence delimiter? -/
def hasFence : List Char → Bool
  | [] => false
  | c :: cs => (c = btick && startsTwoBticks cs) || hasFence cs

theorem reSubFencesAux_of_no_fence :
    ∀ (fuel : Nat) (l : List Char), hasFence l = false → reSubFencesAux fuel l = l := by
  intro fuel
  induction fuel with
  | zero =>
    intro l _
    cases l <;> rfl
  | succ fuel ih =>
    intro l h
    cases l with
    | nil => rfl
    | cons c cs =>
      rw [hasFence, Bool.or_eq_false_iff] at h
      obtain ⟨h1, h2⟩ := h
      by_cases hc : c = btick
      · subst hc
        have hst : startsTwoBticks cs = false := by
          rw [Bool.and_eq_false_iff] at h1
          rcases h1 with h1 | h1
          · simp at h1
          · exact h1
        cases cs with
        | nil => simp [reSubFencesAux]
        | cons c2 cs2 =>
          by_cases hc2 : c2 = btick
          · subst hc2
            cases cs2 with
            | nil => simp [reSubFencesAux, ih _ h2]
            | cons c3 cs3 =>
              have hc3 : (c3 = btick) = False := by
                rw [startsTwoBticks] at hst
                simp at hst
                simp [hst]
              simp [reSubFencesAux, hc3, ih _ h2]
          · simp [reSubFencesAux, hc2, ih _ h2]
      · simp [reSubFencesAux, hc, ih _ h2]

theorem reSubFences_of_no_fence (l : List Char) (h : hasFence l = false) :
    reSubFences l = l :=
  reSubFencesAux_of_no_fence l.length l h

/-- Is the first character absent or a non-whitespace character? -/
def headNotSpace (l : List Char) : Bool :=
  match l.head? with
  | some c => !(isPySpace c)
  | none => true

/-- Is the last character absent or a non-whitespace character? -/
def lastNotSpace (l : List Char) : Bool :=
  headNotSpace l.reverse

/-- Is the last character absent or different from a semicolon? -/
def lastNotSemi (l : List Char) : Bool :=
  match l.getLast? with
  | some c => !(c = ';')
  | none => true

theorem pyStripChars_id (l : List Char)
    (h1 : headNotSpace l = true) (h2 : lastNotSpace l = true) :
    pyStripChars l = l := by
  unfold pyStripChars
  have d1 : l.dropWhile isPySpace = l := by
    cases l with
    | nil => rfl
    | cons c cs =>
      unfold headNotSpace at h1
      simp at h1
      simp [List.dropWhile_cons, h1]
  rw [d1]
  have d2 : l.reverse.dropWhile isPySpace = l.reverse := by
    unfold lastNotSpace headNotSpace at h2
    cases hr : l.reverse with
    | nil => rfl
    | cons c cs =>
      rw [hr] at h2
      simp at h2
      simp [List.dropWhile_cons, h2]
  rw [d2, List.reverse_reverse]

theorem rstripSemis_id (l : List Char) (h : lastNotSemi l = true) :
    rstripSemis l = l := by
  unfold rstripSemis
  have d : l.reverse.dropWhile (fun c => c = ';') = l.reverse := by
    unfold lastNotSemi at h
    cases hr : l.reverse with
    | nil => rfl
    | cons c cs =>
      have hh : l.getLast? = some c := by
        rw [← List.head?_reverse, hr]
        rfl
      rw [hh] at h
      simp at h
      simp [List.dropWhile_cons, h]
  rw [d, List.reverse_reverse]

/-- Modelled from the spec wording of the sanitizer: remove at most one
trailing semicolon. -/
def dropOneTrailingSemi (l : List Char) : List Char :=
  match l.getLast? with
  | some c => if c = ';' then l.dropLast else l
  | none => l

/-- Remove every trailing semicolon, written by structural recursion
(independent of the reverse-and-drop formulation of `rstripSemis`). -/
def dropTrailingSemisRec : List Char → List Char
  | [] => []
  | c :: rest =>
    let r := dropTrailingSemisRec rest
    if r.isEmpty && c = ';' then [] else c :: r

theorem rstripSemis_cons (c : Char) (rest : List Char) :
    rstripSemis (c :: rest) =
      if (rstripSemis rest).isEmpty && c = ';' then [] else c :: rstripSemis rest := by
  unfold rstripSemis
  rw [List.reverse_cons, List.dropWhile_append]
  by_cases hA : (rest.reverse.dropWhile (fun c => c = ';')).isEmpty
  · have hE : rest.reverse.dropWhile (fun c => c = ';') = [] := by
      rwa [List.isEmpty_iff] at hA
    by_cases hc : c = ';'
    · simp [hA, hE, hc, List.dropWhile_cons]
    · simp [hA, hE, hc, List.dropWhile_cons]
  · have hA' : (rest.reverse.dropWhile (fun c => c = ';')).isEmpty = false := by
      simpa using hA
    have hrev : ((rest.reverse.dropWhile (fun c => c = ';')).reverse).isEmpty = false := by
      rw [List.isEmpty_eq_false]
      simp only [ne_eq, List.reverse_eq_nil_iff]
      intro hnil
      rw [hnil] at hA'
      simp at hA'
    rw [if_neg hA, List.reverse_append, hrev]
    simp

theorem dropTrailingSemisRec_eq (l : List Char) :
    dropTrailingSemisRec l = rstripSemis l := by
  induction l with
  | nil => rfl
  | cons c rest ih =>
    rw [dropTrailingSemisRec, rstripSemis_cons, ih]

/-- Composition of the sanitizer stages as the spec words them, with a
single trailing semicolon removed. -/
def clean_sql_specSingle (s : String) : String :=
  String.mk (dropOneTrailingSemi (pyStripChars (reSubFences s.data)))

/-- Composition of the sanitizer stages with every trailing semicolon
removed (the amended wording). -/
def clean_sql_specAll (s : String) : String :=
  String.mk (dropTrailingSemisRec (pyStripChars (reSubFences s.data)))

/-! Field-preservation lemmas for the nodes. -/

@[simp] theorem preState_question (o : Oracles) (st : RAGState) (q : String) :
    (preState o st q).question = q := rfl

@[simp] theorem preState_sql_query (o : Oracles) (st : RAGState) (q : String) :
    (preState o st q).sql_query = clean_sql (o.genSqlRaw q) := rfl

@[simp] theorem preState_db_results (o : Oracles) (st : RAGState) (q : String) :
    (preState o st q).db_results = st.db_results := rfl

@[simp] theorem preState_error (o : Oracles) (st : RAGState) (q : String) :
    (preState o st q).error = st.error := rfl

@[simp] theorem preState_messages (o : Oracles) (st : RAGState) (q : String) :
    (preState o st q).messages = st.messages ++ [Message.human q] := rfl

@[simp] theorem handle_error_node_final_answer (st : RAGState) :
    (handle_error_node st).final_answer =
      errTemplate (st.error.getD unknownErrorMsg) := rfl

@[simp] theorem handle_error_node_sql_query (st : RAGState) :
    (handle_error_node st).sql_query = st.sql_query := rfl

@[simp] theorem handle_error_node_db_results (st : RAGState) :
    (handle_error_node st).db_results = st.db_results := rfl

@[simp] theorem handle_error_node_error (st : RAGState) :
    (handle_error_node st).error = st.error := rfl

@[simp] theorem handle_error_node_question (st : RAGState) :
    (handle_error_node st).question = st.question := rfl

@[simp] theorem generate_answer_node_db_results (o : Oracles) (st : RAGState) :
    (generate_answer_node o st).db_results = st.db_results := by
  unfold generate_answer_node
  split <;> rfl

@[simp] theorem generate_answer_node_question (o : Oracles) (st : RAGState) :
    (generate_answer_node o st).question = st.question := by
  unfold generate_answer_node
  split <;> rfl

@[simp] theorem generate_answer_node_sql_query (o : Oracles) (st : RAGState) :
    (generate_answer_node o st).sql_query = st.sql_query := by
  unfold generate_answer_node
  split <;> rfl

@[simp] theorem generate_answer_node_error (o : Oracles) (st : RAGState) :
    (generate_answer_node o st).error = st.error := by
  unfold generate_answer_node
  split <;> rfl

theorem errTemplate_ne_empty (e : String) : errTemplate e ≠ "" := by
  intro h
  have hl := congrArg String.length h
  rw [errTemplate, String.length_append, String.length_append] at hl
  have hp : 0 < errPrefix.length := by decide
  simp at hl
  omega

theorem noResultsMsg_ne_empty : noResultsMsg ≠ "" := by decide

theorem askTurn_question (o : Oracles) (st : RAGState) (q : String) :
    (askTurn o st q).state.question = q := by
  by_cases hlen : (clean_sql (o.genSqlRaw q)).length > 10
  · cases hdb : o.dbExec (clean_sql (o.genSqlRaw q)) with
    | ok rows =>
      by_cases hst : pyTruthyErr st.error
      · rw [askTurn_okStale o st q rows hlen hdb hst]
        simp
      · rw [askTurn_okClean o st q rows hlen hdb (by simpa using hst)]
        simp
    | error e =>
      rw [askTurn_dbError o st q e hlen hdb]
      simp
  · rw [askTurn_invalid o st q (Nat.not_lt.mp hlen)]
    simp

/-! Concrete oracle families for concrete runs of the workflow. -/

/-- A sample database row. -/
def rowA : Row := [("name", "Galaxy S25")]

/-- A plausible synthesized statement (length 31, passes the validity
check, already sanitized). -/
def sqlGood : String := "SELECT name FROM samsung_phones"

/-- A statement the stubbed store raises on (length 30, passes the
validity check). -/
def sqlBad : String := "SELECT nam FROM samsung_phones"

/-- Oracles where the answer-synthesis model returns the empty string on
a non-empty row set. -/
def oEmptyAnswer : Oracles :=
  { genSqlRaw := fun _ => sqlGood,
    dbExec := fun _ => Except.ok [rowA],
    genAnswerRaw := fun _ _ => "",
    strMsg := fun _ => "" }

/-- Oracles where the first question leads to a failing statement and the
second to a successful statement with zero rows. -/
def oStaleError : Oracles :=
  { genSqlRaw := fun q => if q = "q1" then sqlBad else sqlGood,
    dbExec := fun s => if s = sqlBad then Except.error "boom" else Except.ok [],
    genAnswerRaw := fun _ _ => "fine",
    strMsg := fun _ => "" }

/-- Oracles where the first question succeeds with one row and the second
leads to a statement the store raises on. -/
def oLateFail : Oracles :=
  { genSqlRaw := fun q => if q = "q1" then sqlGood else sqlBad,
    dbExec := fun s =>
      if s = sqlBad then Except.error "relation does not exist"
      else Except.ok [rowA],
    genAnswerRaw := fun _ _ => "Here is one phone.",
    strMsg := fun _ => "" }

/-- Oracles where the first question succeeds with one row and the second
produces a too-short statement. -/
def oRowsThenInvalid : Oracles :=
  { genSqlRaw := fun q => if q = "q1" then sqlGood else "no",
    dbExec := fun _ => Except.ok [rowA],
    genAnswerRaw := fun _ _ => "Here is one phone.",
    strMsg := fun _ => "" }

/-- Oracles whose SQL model always produces a too-short statement. -/
def oShortSql : Oracles :=
  { genSqlRaw := fun _ => "no",
    dbExec := fun _ => Except.ok [rowA],
    genAnswerRaw := fun _ _ => "ok",
    strMsg := fun _ => "" }

/-- Does Python's `isinstance(msg, HumanMessage)` hold for the message?
(line 138 of the source). -/
def isHumanMsg : Message → Bool
  | Message.human _ => true
  | _ => false

/-- A state whose last message is an assistant utterance. -/
def stWithAi : RAGState :=
  { initialState with messages := [Message.ai "x"] }

/-! Claim theorems. -/

/-- Claim C1, counterexample: a turn that reaches End through
GenerateAnswer with a non-empty row set and an answer model that returns
the empty string has an empty `final_answer`, so terminal-state totality
fails as stated. -/
theorem C1_empty_model_answer_cex :
    (askTurn oEmptyAnswer initialState "q").route = Route.answer ∧
    (askTurn oEmptyAnswer initialState "q").state.final_answer = "" := by
  constructor
  · decide
  · decide

/-- Claim C1 as amended: at End, `final_answer` is empty exactly when the
turn took the GenerateAnswer path on a non-empty row set and the stripped
output of the answer-synthesis model call is itself empty; on the
HandleError path and on the empty-result short-circuit, `final_answer` is
always non-empty. -/
theorem C1_final_answer_characterization (o : Oracles) (st : RAGState) (q : String) :
    (askTurn o st q).state.final_answer = "" ↔
      ((askTurn o st q).route = Route.answer ∧
       (askTurn o st q).state.db_results ≠ [] ∧
       pyStripStr (o.genAnswerRaw q (askTurn o st q).state.db_results) = "") := by
  by_cases hlen : (clean_sql (o.genSqlRaw q)).length > 10
  · cases hdb : o.dbExec (clean_sql (o.genSqlRaw q)) with
    | ok rows =>
      by_cases hst : pyTruthyErr st.error
      · rw [askTurn_okStale o st q rows hlen hdb hst]
        simp [errTemplate_ne_empty]
      · rw [askTurn_okClean o st q rows hlen hdb (by simpa using hst)]
        cases hrows : rows.isEmpty with
        | false =>
          have hne : rows ≠ [] := by simpa using hrows
          unfold generate_answer_node
          simp [hrows, hne]
        | true =>
          have hnil : rows = [] := by simpa using hrows
          subst hnil
          unfold generate_answer_node
          simp [noResultsMsg_ne_empty]
    | error e =>
      rw [askTurn_dbError o st q e hlen hdb]
      simp [errTemplate_ne_empty]
  · rw [askTurn_invalid o st q (Nat.not_lt.mp hlen)]
    simp [errTemplate_ne_empty]

/-- Claim C2: after any N turns on one conversation id, the history is
exactly the N (user, assistant) pairs in call order: 2N entries,
alternating roles, the user contents being the questions asked, never
truncated or reordered. -/
theorem C2_append_only_history (o : Oracles) (qs : List String) :
    ∃ answers : List String, answers.length = qs.length ∧
      get_conversation_history (runThread o qs) = turnPairs (qs.zip answers) ∧
      (get_conversation_history (runThread o qs)).length = 2 * qs.length := by
  obtain ⟨answers, hlen, hmsg⟩ := runThread_messages o qs initialState
  have hh : get_conversation_history (runThread o qs) = turnPairs (qs.zip answers) := by
    rw [get_conversation_history, runThread, hmsg]
    simp [initialState]
  refine ⟨answers, hlen, hh, ?_⟩
  rw [hh, turnPairs_length, List.length_zip, hlen]
  simp

/-- Claim C3, counterexample: on a conversation whose first turn recorded
a store failure, a second turn whose execution succeeds with zero rows is
still routed to HandleError because the `error` channel is never cleared,
so its `final_answer` is not the canned no-results message. -/
theorem C3_stale_error_cex :
    (askTurn oStaleError (ask oStaleError initialState "q1").2 "q2").dbCalls = 1 ∧
    (askTurn oStaleError (ask oStaleError initialState "q1").2 "q2").state.db_results = [] ∧
    (askTurn oStaleError (ask oStaleError initialState "q1").2 "q2").route = Route.errorDb ∧
    (askTurn oStaleError (ask oStaleError initialState "q1").2 "q2").answerLlmCalls = 0 ∧
    (askTurn oStaleError (ask oStaleError initialState "q1").2 "q2").state.final_answer ≠
      noResultsMsg := by
  refine ⟨by decide, by decide, by decide, by decide, by decide⟩

/-- Claim C3 as amended: on a turn whose synthesized SQL passes the
validity check, whose execution succeeds with zero rows, and whose thread
carries no recorded error from an earlier turn (any first turn in
particular), the canned no-results message verbatim becomes
`final_answer` and the appended assistant utterance, and the
answer-synthesis model call is not invoked. -/
theorem C3_empty_result_short_circuit (o : Oracles) (st : RAGState) (q : String)
    (hnoerr : pyTruthyErr st.error = false)
    (hvalid : (clean_sql (o.genSqlRaw q)).length > 10)
    (hzero : o.dbExec (clean_sql (o.genSqlRaw q)) = Except.ok []) :
    (askTurn o st q).state.final_answer = noResultsMsg ∧
    (askTurn o st q).answerLlmCalls = 0 ∧
    (askTurn o st q).state.messages =
      st.messages ++ [Message.human q, Message.ai noResultsMsg] := by
  rw [askTurn_okClean o st q [] hvalid hzero hnoerr]
  unfold generate_answer_node
  refine ⟨by simp, by simp, by simp⟩

/-- Witness for the amended C3 at a concrete input. -/
theorem C3_witness :
    pyTruthyErr initialState.error = false ∧
    (clean_sql (oStaleError.genSqlRaw "q2")).length > 10 ∧
    oStaleError.dbExec (clean_sql (oStaleError.genSqlRaw "q2")) = Except.ok [] ∧
    (askTurn oStaleError initialState "q2").state.final_answer = noResultsMsg :=
  ⟨by decide, by decide, by rfl,
    (C3_empty_result_short_circuit oStaleError initialState "q2"
      (by decide) (by decide) (by rfl)).1⟩

/-- Claim C4: a query is judged valid exactly when its (sanitized) length
exceeds 10 characters, and a turn whose sanitized synthesis output has
length at most 10 routes to HandleError, never calls the store, and ends
with a `final_answer` that starts with the explanatory template. -/
theorem C4_validity_and_invalid_routing (o : Oracles) (st : RAGState) (q : String) :
    (∀ s : RAGState, check_sql_valid s = "valid" ↔ s.sql_query.length > 10) ∧
    ((clean_sql (o.genSqlRaw q)).length ≤ 10 →
      (askTurn o st q).route = Route.errorInvalid ∧
      (askTurn o st q).dbCalls = 0 ∧
      ∃ tail : String, (askTurn o st q).state.final_answer = errPrefix ++ tail) := by
  constructor
  · intro s
    rw [check_sql_valid_eq]
    by_cases h : s.sql_query.length > 10
    · simp [h]
    · simp [h]
  · intro h
    rw [askTurn_invalid o st q h]
    refine ⟨rfl, rfl, st.error.getD unknownErrorMsg ++ errSuffix, ?_⟩
    simp [errTemplate]

/-- Witness for C4 at a concrete input. -/
theorem C4_witness :
    (clean_sql (oShortSql.genSqlRaw "q")).length ≤ 10 ∧
    (askTurn oShortSql initialState "q").route = Route.errorInvalid ∧
    (askTurn oShortSql initialState "q").dbCalls = 0 :=
  ⟨by decide,
   ((C4_validity_and_invalid_routing oShortSql initialState "q").2 (by decide)).1,
   ((C4_validity_and_invalid_routing oShortSql initialState "q").2 (by decide)).2.1⟩

/-- Claim C5, counterexample: when an earlier turn of the same
conversation stored a non-empty row set, a later turn on which the store
raises leaves those stale rows in place, so the rows field is not empty
after the failing turn. -/
theorem C5_stale_rows_cex :
    (askTurn oLateFail (ask oLateFail initialState "q1").2 "q2").route = Route.errorDb ∧
    (ask oLateFail (ask oLateFail initialState "q1").2 "q2").1.results ≠ [] := by
  constructor
  · decide
  · decide

/-- Claim C5 as amended: when the store raises on the synthesized SQL of
a turn, the exception is caught and recorded as an error message carrying
the store text, `final_answer` embeds that text via the fixed template,
and the rows field is left unchanged from before the turn, hence empty on
a fresh conversation. -/
theorem C5_store_failure_routing (o : Oracles) (st : RAGState) (q e : String)
    (hvalid : (clean_sql (o.genSqlRaw q)).length > 10)
    (hfail : o.dbExec (clean_sql (o.genSqlRaw q)) = Except.error e) :
    (askTurn o st q).route = Route.errorDb ∧
    (askTurn o st q).state.error = some ("Database error: " ++ e) ∧
    (askTurn o st q).state.final_answer = errTemplate ("Database error: " ++ e) ∧
    (askTurn o st q).state.db_results = st.db_results := by
  rw [askTurn_dbError o st q e hvalid hfail]
  refine ⟨rfl, by simp, by simp, by simp⟩

/-- Witness for the amended C5 at a concrete input. -/
theorem C5_witness :
    (clean_sql (oLateFail.genSqlRaw "q2")).length > 10 ∧
    oLateFail.dbExec (clean_sql (oLateFail.genSqlRaw "q2")) =
      Except.error "relation does not exist" ∧
    (askTurn oLateFail initialState "q2").state.db_results = initialState.db_results :=
  ⟨by decide, by rfl,
    (C5_store_failure_routing oLateFail initialState "q2" "relation does not exist"
      (by decide) (by rfl)).2.2.2⟩

/-- A lowercase-tagged opening code fence. -/
def fenceTagLower : String := String.mk [btick, btick, btick, 's', 'q', 'l']

/-- An uppercase-tagged opening code fence. -/
def fenceTagUpper : String := String.mk [btick, btick, btick, 'S', 'Q', 'L']

/-- A bare code fence. -/
def fenceBare : String := String.mk [btick, btick, btick]

/-- Claim C6, counterexample: the sanitizer removes every trailing
semicolon, not a single one, so it disagrees with the spec-worded
single-semicolon sanitizer on an output ending in two semicolons. -/
theorem C6_double_semicolon_cex :
    clean_sql "SELECT 1;;" = "SELECT 1" ∧
    clean_sql_specSingle "SELECT 1;;" = "SELECT 1;" ∧
    clean_sql "SELECT 1;;" ≠ clean_sql_specSingle "SELECT 1;;" := by
  refine ⟨by decide, by decide, by decide⟩

/-- Claim C6 as amended: the sanitizer equals, on every input, the
composition that removes code-fence delimiters (language-tagged and bare,
case-insensitively), trims surrounding whitespace, and removes every
trailing semicolon; case-insensitivity is also exercised on an
uppercase-tagged fence. -/
theorem C6_sanitizer_spec (s : String) :
    clean_sql s = clean_sql_specAll s ∧
    clean_sql (fenceTagUpper ++ " SELECT 2; " ++ fenceBare) = "SELECT 2" := by
  constructor
  · unfold clean_sql clean_sql_specAll
    rw [dropTrailingSemisRec_eq]
  · decide

/-- Claim C7: sanitizing an already-sanitized string (no code fence, no
surrounding whitespace, no trailing semicolon) returns it unchanged, and
sanitizing the fenced example yields exactly "SELECT 1". -/
theorem C7_sanitization_idempotence (s : String)
    (hf : hasFence s.data = false)
    (h1 : headNotSpace s.data = true)
    (h2 : lastNotSpace s.data = true)
    (hsemi : lastNotSemi s.data = true) :
    clean_sql s = s ∧
    clean_sql (fenceTagLower ++ " SELECT 1; " ++ fenceBare) = "SELECT 1" := by
  constructor
  · unfold clean_sql
    rw [reSubFences_of_no_fence s.data hf, pyStripChars_id s.data h1 h2,
      rstripSemis_id s.data hsemi]
  · decide

/-- Witness for C7 at a concrete input. -/
theorem C7_witness :
    hasFence sqlGood.data = false ∧
    headNotSpace sqlGood.data = true ∧
    lastNotSpace sqlGood.data = true ∧
    lastNotSemi sqlGood.data = true ∧
    clean_sql sqlGood = sqlGood :=
  ⟨by decide, by decide, by decide, by decide,
    (C7_sanitization_idempotence sqlGood (by decide) (by decide) (by decide)
      (by decide)).1⟩

/-- Claim C8: every turn that reaches HandleError (from invalid SQL or
from execution failure) sets `final_answer` to the fixed template applied
to the recorded error text (defaulting to the unknown-error text, which
starts with "Unknown error", when none is recorded), appends exactly that
answer as one assistant utterance, and performs exactly one SQL-synthesis
model call in the turn (no retry loop back to GenerateSQL). -/
theorem C8_handle_error_message (o : Oracles) (st : RAGState) (q : String)
    (h : (askTurn o st q).route ≠ Route.answer) :
    (askTurn o st q).state.final_answer =
      errTemplate ((askTurn o st q).state.error.getD unknownErrorMsg) ∧
    (askTurn o st q).state.messages =
      st.messages ++ [Message.human q,
        Message.ai ((askTurn o st q).state.final_answer)] ∧
    (askTurn o st q).sqlLlmCalls = 1 ∧
    ((askTurn o st q).state.error = none →
      ∃ tail : String,
        (askTurn o st q).state.final_answer = errPrefix ++ ("Unknown error" ++ tail)) := by
  have hunk : unknownErrorMsg = "Unknown error" ++ " occurred" := rfl
  by_cases hlen : (clean_sql (o.genSqlRaw q)).length > 10
  · cases hdb : o.dbExec (clean_sql (o.genSqlRaw q)) with
    | ok rows =>
      by_cases hst : pyTruthyErr st.error
      · rw [askTurn_okStale o st q rows hlen hdb hst]
        refine ⟨by simp, by simp, rfl, ?_⟩
        intro hnone
        simp at hnone
        rw [hnone] at hst
        simp [pyTruthyErr] at hst
      · exfalso
        apply h
        rw [askTurn_okClean o st q rows hlen hdb (by simpa using hst)]
    | error e =>
      rw [askTurn_dbError o st q e hlen hdb]
      refine ⟨by simp, by simp, rfl, ?_⟩
      intro hnone
      simp at hnone
  · rw [askTurn_invalid o st q (Nat.not_lt.mp hlen)]
    refine ⟨by simp, by simp, rfl, ?_⟩
    intro hnone
    simp at hnone
    refine ⟨" occurred" ++ errSuffix, ?_⟩
    simp only [handle_error_node_final_answer, preState_error, hnone, Option.getD_none]
    rw [errTemplate, hunk, String.append_assoc]

/-- Witness for C8 at a concrete input. -/
theorem C8_witness :
    (askTurn oShortSql initialState "q").route ≠ Route.answer ∧
    (askTurn oShortSql initialState "q").state.final_answer =
      errTemplate ((askTurn oShortSql initialState "q").state.error.getD unknownErrorMsg) :=
  ⟨by decide, (C8_handle_error_message oShortSql initialState "q" (by decide)).1⟩

/-- Claim C9: the ExtractQuestion step reads the most recently appended
message: a user utterance contributes its content, any other message its
raw rendering; consequently within any `ask` turn the question equals the
question just asked, and the step always succeeds. -/
theorem C9_extract_question (o : Oracles) (st : RAGState) (m : Message)
    (h : st.messages.getLast? = some m) :
    (∀ c : String, m = Message.human c → (extract_question_node o st).question = c) ∧
    (isHumanMsg m = false → (extract_question_node o st).question = o.strMsg m) ∧
    (∀ q : String, (askTurn o st q).state.question = q) := by
  refine ⟨?_, ?_, fun q => askTurn_question o st q⟩
  · intro c hm
    subst hm
    simp [extract_question_node, h]
  · intro hm
    cases m with
    | human c => simp [isHumanMsg] at hm
    | ai c => simp [extract_question_node, h]
    | sys c => simp [extract_question_node, h]

/-- Witness for C9 at a concrete input. -/
theorem C9_witness :
    stWithAi.messages.getLast? = some (Message.ai "x") ∧
    isHumanMsg (Message.ai "x") = false ∧
    (extract_question_node oShortSql stWithAi).question =
      oShortSql.strMsg (Message.ai "x") :=
  ⟨by decide, by decide,
    (C9_extract_question oShortSql stWithAi (Message.ai "x")
      (by decide)).2.1 (by decide)⟩

/-- Claim C10, counterexample: on a conversation whose first turn stored
one row, a second turn with invalid SQL still returns the stale row set
under the results key of `ask`, so the results key is not the empty list
on every error turn. -/
theorem C10_stale_results_cex :
    (askTurn oRowsThenInvalid (ask oRowsThenInvalid initialState "q1").2 "q2").route =
      Route.errorInvalid ∧
    (ask oRowsThenInvalid (ask oRowsThenInvalid initialState "q1").2 "q2").1.results ≠ [] ∧
    (ask oRowsThenInvalid (ask oRowsThenInvalid initialState "q1").2 "q2").1.sql_query =
      "no" := by
  refine ⟨by decide, by decide, by decide⟩

/-- Claim C10 as amended: HandleError changes only `final_answer` and
appends one assistant message, leaving every other field unchanged; on
error turns, `ask` returns this turn's synthesized SQL under the
sql_query key and the rows recorded before the turn under the results key
(the empty list on a fresh conversation). -/
theorem C10_error_frame (o : Oracles) (st : RAGState) (q : String) :
    (∀ s : RAGState, handle_error_node s =
      { s with final_answer := errTemplate (s.error.getD unknownErrorMsg),
               messages := s.messages ++
                 [Message.ai (errTemplate (s.error.getD unknownErrorMsg))] }) ∧
    ((askTurn o st q).route = Route.errorInvalid →
      (ask o st q).1.sql_query = clean_sql (o.genSqlRaw q) ∧
      (ask o st q).1.results = st.db_results) ∧
    (∀ e : String, o.dbExec (clean_sql (o.genSqlRaw q)) = Except.error e →
      (ask o st q).1.sql_query = clean_sql (o.genSqlRaw q) ∧
      (ask o st q).1.results = st.db_results) := by
  refine ⟨fun s => rfl, ?_, ?_⟩
  · intro hroute
    by_cases hlen : (clean_sql (o.genSqlRaw q)).length > 10
    · exfalso
      cases hdb : o.dbExec (clean_sql (o.genSqlRaw q)) with
      | ok rows =>
        by_cases hst : pyTruthyErr st.error
        · rw [askTurn_okStale o st q rows hlen hdb hst] at hroute
          simp at hroute
        · rw [askTurn_okClean o st q rows hlen hdb (by simpa using hst)] at hroute
          simp at hroute
      | error e =>
        rw [askTurn_dbError o st q e hlen hdb] at hroute
        simp at hroute
    · have hrw := askTurn_invalid o st q (Nat.not_lt.mp hlen)
      simp only [ask, hrw]
      refine ⟨by simp, by simp⟩
  · intro e hdb
    rcases Nat.lt_or_ge 10 (clean_sql (o.genSqlRaw q)).length with hlen | hlen
    · have hrw := askTurn_dbError o st q e hlen hdb
      simp only [ask, hrw]
      refine ⟨by simp, by simp⟩
    · have hrw := askTurn_invalid o st q hlen
      simp only [ask, hrw]
      refine ⟨by simp, by simp⟩

/-- Witness for the amended C10 at a concrete input. -/
theorem C10_witness :
    (askTurn oShortSql initialState "q").route = Route.errorInvalid ∧
    (ask oShortSql initialState "q").1.results = initialState.db_results :=
  ⟨by decide, ((C10_error_frame oShortSql initialState "q").2.1 (by decide)).2⟩

end PhoneAdvisor
